import Mathlib

/-!
Shallow embedding of the SGET_MODEL tram simulation
(`src/tram_simulation.py`) and verification of its specification claims.

Real-valued quantities of the Python source (floats) are modelled as
exact rationals (ℚ); passenger counts are integers (ℤ/ℕ) as in the
source.  Randomness (gauss samples, uniform jitter) is modelled by
passing the drawn value as an explicit argument.
-/

/-- Python `int()` applied to a real value: truncation toward zero. -/
def pyTrunc (q : ℚ) : ℤ := if q < 0 then ⌈q⌉ else ⌊q⌋

/-- Rounding to the nearest integer (half up), used to formalise the
spec's phrase "rounded to the nearest integer". -/
def roundNearest (q : ℚ) : ℤ := ⌊q + 1/2⌋

/-- Travel direction of a tram (`Tram.direction`, "forward"/"backward"). -/
inductive Direction where
  | forward
  | backward
deriving DecidableEq, Repr

/-- `Tram` (tram_simulation.py lines 65-81): id, fixed capacity, current
passenger count, current direction.  Statistics fields not needed by the
claims are omitted except the trip counter used by claim C5's model. -/
structure Tram where
  tram_id : ℕ
  capacity : ℤ
  passengers : ℤ
  direction : Direction
deriving DecidableEq, Repr

/-- `Tram.free_seats` (line 75-77). -/
def Tram.free_seats (t : Tram) : ℤ := t.capacity - t.passengers

/-- `Tram.board_passengers` (lines 83-87): board `min(waiting, free_seats)`
passengers; returns the updated tram and the boarded count. -/
def Tram.board_passengers (t : Tram) (waiting : ℤ) : Tram × ℤ :=
  let can_board := min waiting t.free_seats
  ({ t with passengers := t.passengers + can_board }, can_board)

/-- The alighting rate computed inside `Tram.alight_passengers`
(lines 94-107): base rate 0.2, doubled at the peak stop, plus an
end-of-route bonus 0.3 * progress, capped at 0.8; the progress is
`stop_id / total_stops` when travelling forward and
`(total_stops - stop_id + 1) / total_stops` when travelling backward. -/
def alightRate (dir : Direction) (stop_id total_stops peak_stop : ℕ) : ℚ :=
  let base_rate : ℚ := if stop_id = peak_stop then (2/10) * 2 else 2/10
  let progress : ℚ :=
    if dir = Direction.forward then (stop_id : ℚ) / (total_stops : ℚ)
    else ((total_stops : ℚ) - (stop_id : ℚ) + 1) / (total_stops : ℚ)
  min (base_rate + progress * (3/10)) (8/10)

/-- Whether `stop_id` is the terminal of the current direction
(lines 111-112). -/
def isTerminal (dir : Direction) (stop_id total_stops : ℕ) : Prop :=
  (dir = Direction.forward ∧ stop_id = total_stops) ∨
    (dir = Direction.backward ∧ stop_id = 1)

instance (dir : Direction) (stop_id total_stops : ℕ) :
    Decidable (isTerminal dir stop_id total_stops) := by
  unfold isTerminal; infer_instance

/-- `Tram.alight_passengers` (lines 89-118): with no passengers nothing
happens; otherwise `int(passengers * alighting_rate)` passengers alight,
except at the terminal of the current direction, where all alight.
Returns the updated tram and the alighted count. -/
def Tram.alight_passengers (t : Tram) (stop_id total_stops peak_stop : ℕ) :
    Tram × ℤ :=
  if t.passengers = 0 then (t, 0)
  else
    let rate := alightRate t.direction stop_id total_stops peak_stop
    let alighting := pyTrunc ((t.passengers : ℚ) * rate)
    let alighting :=
      if isTerminal t.direction stop_id total_stops then t.passengers
      else alighting
    ({ t with passengers := t.passengers - alighting }, alighting)

/-- `Stop.get_new_passengers` (lines 45-54): no time elapsed or a
non-positive expected rate gives 0 new passengers; otherwise the gauss
sample (passed explicitly as `sample`) is truncated by Python `int()`
and clamped at 0. -/
def Stop.get_new_passengers (intensity_per_hour time_since_last : ℚ)
    (sample : ℚ) : ℤ :=
  if time_since_last ≤ 0 then 0
  else
    let rate := intensity_per_hour * (time_since_last / 60)
    if rate ≤ 0 then 0
    else max 0 (pyTrunc sample)

/-- Hour of day derived from the virtual clock in minutes:
`int(current_time // 60) % 24` (lines 209, 242, 350). -/
def hourOfTime (t : ℚ) : ℤ := ⌊t / 60⌋ % 24

/-- `TramSimulation.get_current_interval` (lines 207-213): scan the
headway table `bus_intervals` (sorted by start hour) from the last entry
down and return the interval of the first entry whose start hour is
≤ the current hour; fall back to the first entry's interval.  The
source raises IndexError on an empty table; the model returns the
`(0, 0)` default there (no claim concerns the empty table). -/
def get_current_interval (bus_intervals : List (ℚ × ℚ)) (current_time : ℚ) : ℚ :=
  let hour := hourOfTime current_time
  match bus_intervals.reverse.find? (fun p => (hour : ℚ) ≥ p.1) with
  | some p => p.2
  | none => (bus_intervals.headD (0, 0)).2

/-- `TramSimulation.calculate_travel_time` (lines 215-237): zero for a
non-positive distance; otherwise the speed is the free-flow speed scaled
by (1 - road load factor) and by the uniform jitter (passed explicitly),
floored at 5 km/h, and the travel time is distance/speed plus the
acceleration-time constant.  A missing road-load entry defaults to 0.5. -/
def calculate_travel_time (road_loads : List (ℤ × ℚ))
    (flow_speed acceleration_time : ℚ) (distance : ℚ) (hour : ℤ)
    (jitter : ℚ) : ℚ :=
  if distance ≤ 0 then 0
  else
    let load_factor := (road_loads.lookup hour).getD (1/2)
    let actual_speed := flow_speed * (1 - load_factor)
    let actual_speed := actual_speed * jitter
    let actual_speed := max actual_speed 5
    (distance / 1000) * (60 / actual_speed) + acceleration_time

/-- The dwell delay scheduled at the end of `arrive_at_stop`
(lines 289-293): the `stop_time` constant plus 0.05 minutes per
boarded or alighted passenger. -/
def total_stop_time (stop_time : ℚ) (boarded alighted : ℕ) : ℚ :=
  stop_time + ((boarded : ℚ) + (alighted : ℚ)) * (5/100)

/-- The turnaround pause between the forward and backward legs
(line 359). -/
def turnaround_time : ℚ := 2

/-- The configuration fields read by `TramSimulation.load_config`
(lines 177-196).  Capacities and intervals are arbitrary integers /
rationals: the source performs no validation of any of them. -/
structure Config where
  stop_number : ℕ
  distance : List (ℕ × ℚ)
  flow_speed : ℚ
  peak_stop : ℕ
  tram_capacity : ℤ
  simulation_hours : ℚ
  acceleration_time : ℚ
  stop_time : ℚ
  intensity : List (ℕ × ℤ × ℚ)
  bus_interval : List (ℚ × ℚ)
  road_loads : List (ℤ × ℚ)
deriving Repr

/-- The simulation parameters `load_config` stores on the simulation
object.  `load_config` copies every field over unconditionally — it
contains no check of `tram_capacity` (or of anything else beyond the
fields being present). -/
structure SimParams where
  stop_number : ℕ
  distances : List (ℕ × ℚ)
  flow_speed : ℚ
  peak_stop : ℕ
  tram_capacity : ℤ
  simulation_hours : ℚ
  acceleration_time : ℚ
  stop_time : ℚ
  bus_intervals : List (ℚ × ℚ)
  road_loads : List (ℤ × ℚ)
deriving Repr

/-- `TramSimulation.load_config` (lines 177-196): transfer the config
fields onto the simulation; it never fails on any field value. -/
def load_config (c : Config) : SimParams :=
  { stop_number := c.stop_number
    distances := c.distance
    flow_speed := c.flow_speed
    peak_stop := c.peak_stop
    tram_capacity := c.tram_capacity
    simulation_hours := c.simulation_hours
    acceleration_time := c.acceleration_time
    stop_time := c.stop_time
    bus_intervals := c.bus_interval
    road_loads := c.road_loads }

/-- `TramSimulation.create_initial_trams` (lines 311-319): create
`count` trams numbered 1..count, all with the configured capacity and
no passengers, and put each into the available pool (the returned
list). -/
def create_initial_trams (count : ℕ) (tram_capacity : ℤ) : List Tram :=
  (List.range' 1 count).map
    (fun i => { tram_id := i, capacity := tram_capacity, passengers := 0,
                direction := Direction.forward })

/-! ### Fleet pool model

The pool `self.available_trams` is a `simpy.Store`.  After
`create_initial_trams` seeds it, the only operations touching tram
ownership are the dispatcher's `yield self.available_trams.get()`
(line 301), which hands one tram to a freshly started trip process, and
the trip process's `yield self.available_trams.put(tram)` (line 366),
which returns the tram at the end of the round trip.  With no external
interrupt a trip always reaches the `put`.  We model the owner sets as
multisets of tram ids and these two operations as a step relation. -/

/-- Ownership state of the fleet: trams sitting in
`available_trams` versus trams held by in-flight trip processes. -/
structure PoolState where
  available : Multiset ℕ
  inFlight : Multiset ℕ
deriving DecidableEq

/-- One ownership transfer: a dispatch (`available_trams.get()` handing
a tram to a new trip process) or a completion
(`available_trams.put(tram)` at the end of `tram_process`). -/
inductive PoolStep : PoolState → PoolState → Prop where
  | dispatch (s : PoolState) (t : ℕ) (h : t ∈ s.available) :
      PoolStep s ⟨s.available.erase t, t ::ₘ s.inFlight⟩
  | complete (s : PoolState) (t : ℕ) (h : t ∈ s.inFlight) :
      PoolStep s ⟨t ::ₘ s.available, s.inFlight.erase t⟩

/-- The state right after `create_initial_trams`: the whole fleet is in
the pool, nothing is in flight. -/
def initPoolState (fleet : Multiset ℕ) : PoolState := ⟨fleet, 0⟩

/-- States reachable during a run without external interrupts. -/
inductive PoolReachable (fleet : Multiset ℕ) : PoolState → Prop where
  | init : PoolReachable fleet (initPoolState fleet)
  | step {s s' : PoolState} (hr : PoolReachable fleet s)
      (hs : PoolStep s s') : PoolReachable fleet s'

/-! ### Trip process structure

`TramSimulation.tram_process` (lines 321-369) as the sequence of its
atomic steps: the trip-counter increment executed first (line 325),
then for each direction the leg's stop visits — a travel suspension
before every stop except the leg's first (lines 338-352) and an
`arrive_at_stop` call for each stop (line 355) — a turnaround pause
after the forward leg (line 359), and the release of the tram back to
the pool at the very end (line 366). -/

/-- One atomic step of `tram_process`. -/
inductive TramAct where
  | incTrips
  | travel (stop_id : ℕ)
  | arrive (stop_id : ℕ)
  | turnaround
  | releaseTram
deriving DecidableEq, Repr

/-- The stop sequence of one leg (lines 332-335): `1..n` forward,
`n..1` backward. -/
def stops_sequence (dir : Direction) (n : ℕ) : List ℕ :=
  if dir = Direction.forward then List.range' 1 n
  else (List.range' 1 n).reverse

/-- The steps of one leg: arrive at the first stop directly, and travel
then arrive for every later stop (lines 338-355, `if i > 0`). -/
def legActs (dir : Direction) (n : ℕ) : List TramAct :=
  match stops_sequence dir n with
  | [] => []
  | s :: rest =>
      TramAct.arrive s ::
        rest.flatMap (fun st => [TramAct.travel st, TramAct.arrive st])

/-- The full step sequence of `tram_process` for a route with `n`
stops: increment the trip counter first, run the forward leg, pause for
the turnaround, run the backward leg, release the tram. -/
def tram_process (n : ℕ) : List TramAct :=
  TramAct.incTrips ::
    (legActs Direction.forward n ++ TramAct.turnaround ::
      (legActs Direction.backward n ++ [TramAct.releaseTram]))

/-! ### Dispatcher model

`TramSimulation.tram_generator` (lines 295-309), one loop iteration: it
reads `interval = get_current_interval(env.now)` first, then suspends on
`available_trams.get()` — during which virtual time may pass if the
pool is empty — then launches the trip and suspends for the interval
value computed *before* the acquire. -/

/-- Control position of one dispatcher iteration.  The headway read and
the issuing of the `get` happen at the same instant, so `waitingTram`
is entered with the already-computed interval; `delaying` is entered
the instant the acquire completes; `launched` after the headway
timeout. -/
inductive DispatchPhase where
  | loopStart
  | waitingTram (interval : ℚ)
  | delaying (interval : ℚ)
  | launched (interval : ℚ)
deriving DecidableEq

/-- A dispatcher-iteration state: the virtual clock and the control
position. -/
structure DispatchState where
  time : ℚ
  phase : DispatchPhase
deriving DecidableEq

/-- Small-step semantics of one `tram_generator` iteration.
`lookup` computes the interval from the clock and issues the pool
`get` (lines 298-301, no suspension between them); `wait` lets virtual
time pass while the pool is empty; `acquired` resumes the dispatcher
when a tram is granted; `delayed` performs `timeout(interval)` with the
stored interval (line 309). -/
inductive DispatchStep (bus_intervals : List (ℚ × ℚ)) :
    DispatchState → DispatchState → Prop where
  | lookup (t : ℚ) :
      DispatchStep bus_intervals ⟨t, DispatchPhase.loopStart⟩
        ⟨t, DispatchPhase.waitingTram (get_current_interval bus_intervals t)⟩
  | wait (t dt i : ℚ) (h : 0 ≤ dt) :
      DispatchStep bus_intervals ⟨t, DispatchPhase.waitingTram i⟩
        ⟨t + dt, DispatchPhase.waitingTram i⟩
  | acquired (t i : ℚ) :
      DispatchStep bus_intervals ⟨t, DispatchPhase.waitingTram i⟩
        ⟨t, DispatchPhase.delaying i⟩
  | delayed (t i : ℚ) :
      DispatchStep bus_intervals ⟨t, DispatchPhase.delaying i⟩
        ⟨t + i, DispatchPhase.launched i⟩

/-- Reflexive-transitive closure of dispatcher steps. -/
def DispatchSteps (bus_intervals : List (ℚ × ℚ)) :
    DispatchState → DispatchState → Prop :=
  Relation.ReflTransGen (DispatchStep bus_intervals)

/-! ### Helper lemmas -/

lemma pyTrunc_eq_floor {q : ℚ} (h : 0 ≤ q) : pyTrunc q = ⌊q⌋ := by
  unfold pyTrunc
  rw [if_neg (not_lt.mpr h)]

lemma pyTrunc_nonneg {q : ℚ} (h : 0 ≤ q) : 0 ≤ pyTrunc q := by
  rw [pyTrunc_eq_floor h]
  exact Int.floor_nonneg.mpr h

lemma pyTrunc_le_int {q : ℚ} {p : ℤ} (h0 : 0 ≤ q) (h : q ≤ (p : ℚ)) :
    pyTrunc q ≤ p := by
  rw [pyTrunc_eq_floor h0]
  exact_mod_cast Int.floor_le_floor h |>.trans_eq (Int.floor_intCast p)

lemma alightRate_nonneg {dir : Direction} {stop_id total_stops peak_stop : ℕ}
    (h1 : 1 ≤ stop_id) (h2 : stop_id ≤ total_stops) :
    0 ≤ alightRate dir stop_id total_stops peak_stop := by
  have htot : (1 : ℚ) ≤ (total_stops : ℚ) := by
    exact_mod_cast h1.trans h2
  have hprog : 0 ≤ (if dir = Direction.forward then
      (stop_id : ℚ) / (total_stops : ℚ)
      else ((total_stops : ℚ) - (stop_id : ℚ) + 1) / (total_stops : ℚ)) := by
    have hs : (0 : ℚ) ≤ (stop_id : ℚ) := by positivity
    have hsn : (stop_id : ℚ) ≤ (total_stops : ℚ) := by exact_mod_cast h2
    have htn : (0 : ℚ) ≤ (total_stops : ℚ) := by positivity
    split
    · positivity
    · apply div_nonneg _ htn
      linarith
  unfold alightRate
  apply le_min _ (by norm_num)
  have hbase : (2/10 : ℚ) ≤ if stop_id = peak_stop then (2/10 : ℚ) * 2 else 2/10 := by
    split <;> norm_num
  nlinarith [hprog, hbase]

lemma alightRate_le {dir : Direction} {stop_id total_stops peak_stop : ℕ} :
    alightRate dir stop_id total_stops peak_stop ≤ 8/10 := by
  unfold alightRate
  exact min_le_right _ _

/-! ### Claims -/

/-- C1: in every reachable ownership state of a run without external
interrupts, the multiset of trams in the available pool plus the
multiset held by in-flight trips equals the initial fleet, and hence
the available count plus the in-flight count equals the fleet size. -/
theorem C1_pool_conservation (fleet : Multiset ℕ) (s : PoolState)
    (h : PoolReachable fleet s) :
    s.available + s.inFlight = fleet ∧
      Multiset.card s.available + Multiset.card s.inFlight =
        Multiset.card fleet := by
  have key : s.available + s.inFlight = fleet := by
    induction h with
    | init => simp [initPoolState]
    | step hr hs ih =>
        rename_i s s'
        cases hs with
        | dispatch t ht =>
            show s.available.erase t + (t ::ₘ s.inFlight) = fleet
            rw [Multiset.add_cons, ← Multiset.cons_add,
              Multiset.cons_erase ht]
            exact ih
        | complete t ht =>
            show (t ::ₘ s.available) + s.inFlight.erase t = fleet
            rw [Multiset.cons_add, ← Multiset.add_cons,
              Multiset.cons_erase ht]
            exact ih
  refine ⟨key, ?_⟩
  calc Multiset.card s.available + Multiset.card s.inFlight
      = Multiset.card (s.available + s.inFlight) :=
        (Multiset.card_add _ _).symm
    _ = Multiset.card fleet := by rw [key]

/-- Witness for C1: the state after dispatching tram 1 out of the
two-tram fleet {1, 2} is reachable and conserves the fleet. -/
theorem C1_witness :
    (PoolState.mk (2 ::ₘ 0) (1 ::ₘ 0)).available +
        (PoolState.mk (2 ::ₘ 0) (1 ::ₘ 0)).inFlight =
          (1 ::ₘ 2 ::ₘ 0 : Multiset ℕ) ∧
      Multiset.card (PoolState.mk (2 ::ₘ 0) (1 ::ₘ 0)).available +
          Multiset.card (PoolState.mk (2 ::ₘ 0) (1 ::ₘ 0)).inFlight =
        Multiset.card (1 ::ₘ 2 ::ₘ 0 : Multiset ℕ) := by
  refine C1_pool_conservation (1 ::ₘ 2 ::ₘ 0) _ ?_
  have h1 : PoolStep (initPoolState (1 ::ₘ 2 ::ₘ 0))
      (PoolState.mk (2 ::ₘ 0) (1 ::ₘ 0)) := by
    have e1 : (2 ::ₘ 0 : Multiset ℕ) = (1 ::ₘ 2 ::ₘ 0 : Multiset ℕ).erase 1 := by
      rw [Multiset.erase_cons_head]
    have e2 : (1 ::ₘ 0 : Multiset ℕ) =
        1 ::ₘ (initPoolState (1 ::ₘ 2 ::ₘ 0)).inFlight := rfl
    rw [e1, e2]
    exact PoolStep.dispatch _ 1 (by decide)
  exact PoolReachable.step PoolReachable.init h1

/-- C2: for a tram with positive capacity whose state satisfies the
invariant 0 ≤ passengers ≤ capacity, with a non-negative waiting count
and a stop index inside the route, both `board_passengers` and
`alight_passengers` keep the passenger count within [0, capacity]. -/
theorem C2_passenger_bounds (t : Tram) (waiting : ℤ)
    (stop_id total_stops peak_stop : ℕ)
    (hcap : 0 < t.capacity) (hlo : 0 ≤ t.passengers)
    (hhi : t.passengers ≤ t.capacity) (hw : 0 ≤ waiting)
    (hs1 : 1 ≤ stop_id) (hs2 : stop_id ≤ total_stops) :
    (0 ≤ (t.board_passengers waiting).1.passengers ∧
      (t.board_passengers waiting).1.passengers ≤ t.capacity) ∧
    (0 ≤ (t.alight_passengers stop_id total_stops peak_stop).1.passengers ∧
      (t.alight_passengers stop_id total_stops peak_stop).1.passengers ≤
        t.capacity) := by
  constructor
  · unfold Tram.board_passengers
    simp only [Tram.free_seats]
    constructor
    · have : (0 : ℤ) ≤ min waiting (t.capacity - t.passengers) :=
        le_min hw (by linarith)
      linarith
    · have : min waiting (t.capacity - t.passengers) ≤
          t.capacity - t.passengers := min_le_right _ _
      linarith
  · unfold Tram.alight_passengers
    by_cases h0 : t.passengers = 0
    · rw [if_pos h0]
      exact ⟨hlo, hhi⟩
    · rw [if_neg h0]
      simp only
      by_cases hterm : isTerminal t.direction stop_id total_stops
      · rw [if_pos hterm]
        simp only [sub_self]
        exact ⟨le_refl 0, le_of_lt hcap⟩
      · rw [if_neg hterm]
        have hrate0 : 0 ≤ alightRate t.direction stop_id total_stops peak_stop :=
          alightRate_nonneg hs1 hs2
        have hrate1 : alightRate t.direction stop_id total_stops peak_stop ≤
            8/10 := alightRate_le
        have hprod : (0 : ℚ) ≤ (t.passengers : ℚ) *
            alightRate t.direction stop_id total_stops peak_stop := by
          apply mul_nonneg _ hrate0
          exact_mod_cast hlo
        have ha0 : 0 ≤ pyTrunc ((t.passengers : ℚ) *
            alightRate t.direction stop_id total_stops peak_stop) :=
          pyTrunc_nonneg hprod
        have hap : pyTrunc ((t.passengers : ℚ) *
            alightRate t.direction stop_id total_stops peak_stop) ≤
            t.passengers := by
          apply pyTrunc_le_int hprod
          have : (t.passengers : ℚ) *
              alightRate t.direction stop_id total_stops peak_stop ≤
              (t.passengers : ℚ) * 1 := by
            apply mul_le_mul_of_nonneg_left (by linarith)
            exact_mod_cast hlo
          linarith
        constructor
        · linarith
        · linarith

/-- Witness for C2: a tram with capacity 100 and 95 aboard, 10 waiting,
at stop 3 of a 5-stop route. -/
theorem C2_witness :
    (0 ≤ ((Tram.mk 7 100 95 Direction.forward).board_passengers 10).1.passengers ∧
      ((Tram.mk 7 100 95 Direction.forward).board_passengers 10).1.passengers ≤
        (Tram.mk 7 100 95 Direction.forward).capacity) ∧
    (0 ≤ ((Tram.mk 7 100 95 Direction.forward).alight_passengers 3 5 2).1.passengers ∧
      ((Tram.mk 7 100 95 Direction.forward).alight_passengers 3 5 2).1.passengers ≤
        (Tram.mk 7 100 95 Direction.forward).capacity) :=
  C2_passenger_bounds (Tram.mk 7 100 95 Direction.forward) 10 3 5 2
    (by norm_num) (by norm_num) (by norm_num) (by norm_num)
    (by norm_num) (by norm_num)

/-- Modelled from claim C3's words: `progress` as the fractional
distance along the current direction of travel, equal to 0 at the
origin terminal of the leg and 1 at the destination terminal (linear in
the stop index). -/
def claimProgress (dir : Direction) (stop_id total_stops : ℕ) : ℚ :=
  if dir = Direction.forward then
    ((stop_id : ℚ) - 1) / ((total_stops : ℚ) - 1)
  else ((total_stops : ℚ) - (stop_id : ℚ)) / ((total_stops : ℚ) - 1)

/-- Modelled from claim C3's words: alighted count
`floor(p * min(0.8, 0.2 * (2 if stop == peak_stop else 1) + 0.3 * progress))`
at a non-terminal stop, with all `p` passengers alighting at the
terminal of the current direction. -/
def claimAlight (dir : Direction) (p : ℤ) (stop_id total_stops peak_stop : ℕ) : ℤ :=
  if isTerminal dir stop_id total_stops then p
  else
    ⌊(p : ℚ) * min (8/10)
      ((2/10) * (if stop_id = peak_stop then 2 else 1) +
        (3/10) * claimProgress dir stop_id total_stops)⌋

/-- Counterexample for C3: a tram travelling backward with 20 aboard at
the origin terminal of its leg (stop 5 of a 5-stop route, peak stop 3).
The code uses progress = (5 - 5 + 1)/5 = 1/5 and alights
int(20 * 0.26) = 5, while the claim's progress is 0 at the origin
terminal, giving floor(20 * 0.2) = 4. -/
theorem C3_counterexample :
    ((Tram.mk 1 100 20 Direction.backward).alight_passengers 5 5 3).2 = 5 ∧
      claimAlight Direction.backward 20 5 5 3 = 4 := by
  constructor
  · norm_num [Tram.alight_passengers, alightRate, isTerminal, pyTrunc,
      show Direction.backward ≠ Direction.forward from by decide]
  · norm_num [claimAlight, claimProgress, isTerminal,
      show Direction.backward ≠ Direction.forward from by decide]

/-- The amended claim C3: the code's progress is `stop_id/total_stops`
forward and `(total_stops - stop_id + 1)/total_stops` backward — 1/n at
the origin terminal of the leg, not 0. -/
def claimAlightAmended (dir : Direction) (p : ℤ)
    (stop_id total_stops peak_stop : ℕ) : ℤ :=
  let progress : ℚ :=
    if dir = Direction.forward then (stop_id : ℚ) / (total_stops : ℚ)
    else ((total_stops : ℚ) - (stop_id : ℚ) + 1) / (total_stops : ℚ)
  if isTerminal dir stop_id total_stops then p
  else
    ⌊(p : ℚ) * min (8/10)
      ((2/10) * (if stop_id = peak_stop then 2 else 1) +
        (3/10) * progress)⌋

/-- C3 (amended): for every stop arrival of a tram carrying p > 0
passengers at a stop inside the route, the alighted count is
floor(p * min(0.8, 0.2·(2 if peak else 1) + 0.3·progress)) with the
code's progress (1/n at the origin terminal, 1 at the destination), all
p alight at the terminal of the current direction, and a terminal
arrival leaves 0 passengers on board. -/
theorem C3_alight_formula (t : Tram) (stop_id total_stops peak_stop : ℕ)
    (hp : 0 < t.passengers) (hs1 : 1 ≤ stop_id) (hs2 : stop_id ≤ total_stops) :
    (t.alight_passengers stop_id total_stops peak_stop).2 =
        claimAlightAmended t.direction t.passengers stop_id total_stops
          peak_stop ∧
      (isTerminal t.direction stop_id total_stops →
        (t.alight_passengers stop_id total_stops peak_stop).1.passengers = 0) := by
  have h0 : t.passengers ≠ 0 := by linarith
  unfold Tram.alight_passengers claimAlightAmended
  rw [if_neg h0]
  simp only
  by_cases hterm : isTerminal t.direction stop_id total_stops
  · rw [if_pos hterm, if_pos hterm]
    exact ⟨rfl, fun _ => by simp⟩
  · rw [if_neg hterm, if_neg hterm]
    refine ⟨?_, fun h => absurd h hterm⟩
    have hrate0 : 0 ≤ alightRate t.direction stop_id total_stops peak_stop :=
      alightRate_nonneg hs1 hs2
    have hprod : (0 : ℚ) ≤ (t.passengers : ℚ) *
        alightRate t.direction stop_id total_stops peak_stop := by
      apply mul_nonneg _ hrate0
      exact_mod_cast le_of_lt hp
    rw [pyTrunc_eq_floor hprod]
    congr 1
    unfold alightRate
    rw [min_comm]
    congr 1
    by_cases hpk : stop_id = peak_stop
    · rw [if_pos hpk, if_pos hpk]; ring
    · rw [if_neg hpk, if_neg hpk]; ring

/-- Witness for C3 (amended): scenario C of the spec — a tram with
capacity 100 and 95 aboard arriving forward at the final terminal
(stop 5 of 5) alights all 95 and leaves 0 aboard. -/
theorem C3_witness :
    (((Tram.mk 1 100 95 Direction.forward).alight_passengers 5 5 2).2 =
        claimAlightAmended Direction.forward 95 5 5 2 ∧
      (isTerminal Direction.forward 5 5 →
        ((Tram.mk 1 100 95 Direction.forward).alight_passengers 5 5 2).1.passengers
          = 0)) :=
  C3_alight_formula (Tram.mk 1 100 95 Direction.forward) 5 5 2
    (by norm_num) (by norm_num) (by norm_num)

/-- Modelled from claim C4's words: realized new arrivals
`max(0, round(sample))` with rounding to the nearest integer when
elapsed time and the expected count are positive, 0 otherwise. -/
def claimNewPassengers (intensity_per_hour time_since_last sample : ℚ) : ℤ :=
  if 0 < time_since_last ∧ 0 < intensity_per_hour * (time_since_last / 60)
  then max 0 (roundNearest sample)
  else 0

/-- Counterexample for C4: intensity 2/hour, 60 minutes elapsed
(expected = 2 > 0) and a gauss sample of 2.7.  The code truncates with
Python `int()` and realizes 2 passengers; the claim's
round-to-nearest would realize 3. -/
theorem C4_counterexample :
    Stop.get_new_passengers 2 60 (27/10) = 2 ∧
      claimNewPassengers 2 60 (27/10) = 3 := by
  constructor
  · norm_num [Stop.get_new_passengers, pyTrunc]
  · norm_num [claimNewPassengers, roundNearest]

/-- C4 (amended): when elapsed time and the expected count are
positive the realized new arrivals are `max(0, int(sample))` with
Python `int()`, i.e. the sample is truncated toward zero — not rounded
to the nearest integer — before clamping at zero; when the expected
count is non-positive no passengers arrive. -/
theorem C4_new_passengers (intensity_per_hour time_since_last sample : ℚ)
    (ht : 0 < time_since_last) :
    (0 < intensity_per_hour * (time_since_last / 60) →
      Stop.get_new_passengers intensity_per_hour time_since_last sample =
        max 0 (pyTrunc sample)) ∧
    (intensity_per_hour * (time_since_last / 60) ≤ 0 →
      Stop.get_new_passengers intensity_per_hour time_since_last sample = 0) := by
  unfold Stop.get_new_passengers
  rw [if_neg (not_le.mpr ht)]
  constructor
  · intro hrate
    rw [if_neg (not_le.mpr hrate)]
  · intro hrate
    rw [if_pos hrate]

/-- Witness for C4 (amended): the concrete inputs of the
counterexample, realizing trunc(2.7) = 2 passengers. -/
theorem C4_witness :
    Stop.get_new_passengers 2 60 (27/10) = max 0 (pyTrunc (27/10)) :=
  (C4_new_passengers 2 60 (27/10) (by norm_num)).1 (by norm_num)

/-- Every step of a leg is a travel or an arrive: the trip-counter
increment and the pool release do not occur inside a leg. -/
lemma legActs_mem {dir : Direction} {n : ℕ} {a : TramAct}
    (h : a ∈ legActs dir n) :
    (∃ s, a = TramAct.arrive s) ∨ ∃ s, a = TramAct.travel s := by
  unfold legActs at h
  cases hseq : stops_sequence dir n with
  | nil => rw [hseq] at h; simp at h
  | cons s rest =>
      rw [hseq] at h
      rcases List.mem_cons.mp h with h | h
      · exact Or.inl ⟨s, h⟩
      · rcases List.mem_flatMap.mp h with ⟨st, _, hmem⟩
        rcases List.mem_cons.mp hmem with h | h
        · exact Or.inr ⟨st, h⟩
        · rcases List.mem_cons.mp h with h | h
          · exact Or.inl ⟨st, h⟩
          · simp at h

lemma legActs_count_incTrips (dir : Direction) (n : ℕ) :
    (legActs dir n).count TramAct.incTrips = 0 := by
  rw [List.count_eq_zero]
  intro h
  rcases legActs_mem h with ⟨s, hs⟩ | ⟨s, hs⟩ <;> cases hs

lemma legActs_count_release (dir : Direction) (n : ℕ) :
    (legActs dir n).count TramAct.releaseTram = 0 := by
  rw [List.count_eq_zero]
  intro h
  rcases legActs_mem h with ⟨s, hs⟩ | ⟨s, hs⟩ <;> cases hs

/-- Counterexample for C5: the very first step of `tram_process` is
the trip-counter increment — after one executed step of a still
in-progress trip (on a 2-stop route the trip has 8 further steps) the
counter has already gone up, so an interrupted or horizon-frozen trip
also counts. -/
theorem C5_counterexample :
    ((tram_process 2).take 1).count TramAct.incTrips = 1 ∧
      1 < (tram_process 2).length := by
  constructor
  · decide
  · decide

/-- C5 (amended): `tram_process` increments the trip counter exactly
once per full outbound+inbound cycle, but the increment is its very
first step — before either leg — not an effect of completing both legs;
the tram is released back to the pool as the final step, upon
completion of both legs. -/
theorem C5_trip_counter (n : ℕ) :
    (tram_process n).count TramAct.incTrips = 1 ∧
      (tram_process n).head? = some TramAct.incTrips ∧
      (tram_process n).getLast? = some TramAct.releaseTram ∧
      (tram_process n).count TramAct.releaseTram = 1 := by
  refine ⟨?_, rfl, ?_, ?_⟩
  · unfold tram_process
    rw [List.count_cons_self, List.count_append, List.count_cons,
      List.count_append, legActs_count_incTrips, legActs_count_incTrips]
    decide
  · unfold tram_process
    have : TramAct.incTrips ::
        (legActs Direction.forward n ++ TramAct.turnaround ::
          (legActs Direction.backward n ++ [TramAct.releaseTram])) =
        (TramAct.incTrips ::
          (legActs Direction.forward n ++ TramAct.turnaround ::
            legActs Direction.backward n)) ++ [TramAct.releaseTram] := by
      simp
    rw [this, List.getLast?_concat]
  · unfold tram_process
    rw [List.count_cons, List.count_append, List.count_cons,
      List.count_append, legActs_count_release, legActs_count_release]
    decide

/-- Invariant of one dispatcher iteration started at time t0: every
reachable state carries the interval computed at t0 (the instant the
headway was looked up and the pool `get` was issued), and time only
moves forward while waiting. -/
lemma dispatch_invariant (I : List (ℚ × ℚ)) (t0 : ℚ) (s : DispatchState)
    (h : DispatchSteps I ⟨t0, DispatchPhase.loopStart⟩ s) :
    s = ⟨t0, DispatchPhase.loopStart⟩ ∨
    (∃ t1, t0 ≤ t1 ∧
      s = ⟨t1, DispatchPhase.waitingTram (get_current_interval I t0)⟩) ∨
    (∃ t1, t0 ≤ t1 ∧
      s = ⟨t1, DispatchPhase.delaying (get_current_interval I t0)⟩) ∨
    (∃ t1, t0 ≤ t1 ∧
      s = ⟨t1 + get_current_interval I t0,
        DispatchPhase.launched (get_current_interval I t0)⟩) := by
  induction h with
  | refl => exact Or.inl rfl
  | tail hsteps hstep ih =>
      rename_i b c
      rcases ih with hb | ⟨t1, ht1, hb⟩ | ⟨t1, ht1, hb⟩ | ⟨t1, ht1, hb⟩ <;>
        subst hb <;> cases hstep
      · exact Or.inr (Or.inl ⟨t0, le_refl t0, rfl⟩)
      · rename_i dt hdt
        exact Or.inr (Or.inl ⟨t1 + dt, by linarith, rfl⟩)
      · exact Or.inr (Or.inr (Or.inl ⟨t1, ht1, rfl⟩))
      · exact Or.inr (Or.inr (Or.inr ⟨t1, ht1, rfl⟩))

/-- Counterexample for C6: with headway rules (hour 0 → 10 min,
hour 1 → 5 min), a dispatcher iteration that looks up the headway at
minute 50 (hour 0) and whose pool acquire only completes at minute 70
(hour 1) delays by the 10-minute interval of the lookup hour, not by
the 5-minute interval in force when the acquisition completes. -/
theorem C6_counterexample :
    DispatchSteps [(0, 10), (1, 5)]
        ⟨50, DispatchPhase.loopStart⟩ ⟨70, DispatchPhase.delaying 10⟩ ∧
      get_current_interval [(0, 10), (1, 5)] 70 ≠ 10 := by
  have e50 : get_current_interval [(0, 10), (1, 5)] 50 = 10 := by
    norm_num [get_current_interval, hourOfTime, List.find?]
  have e70 : get_current_interval [(0, 10), (1, 5)] 70 = 5 := by
    norm_num [get_current_interval, hourOfTime, List.find?]
  constructor
  · have h1 : DispatchStep [(0, 10), (1, 5)] ⟨50, DispatchPhase.loopStart⟩
        ⟨50, DispatchPhase.waitingTram 10⟩ := by
      have h0 : DispatchStep [(0, 10), (1, 5)] ⟨50, DispatchPhase.loopStart⟩
          ⟨50, DispatchPhase.waitingTram
            (get_current_interval [(0, 10), (1, 5)] 50)⟩ :=
        DispatchStep.lookup 50
      rwa [e50] at h0
    have h2 : DispatchStep [(0, 10), (1, 5)]
        ⟨50, DispatchPhase.waitingTram 10⟩
        ⟨70, DispatchPhase.waitingTram 10⟩ := by
      have h0 : DispatchStep [(0, 10), (1, 5)]
          ⟨50, DispatchPhase.waitingTram 10⟩
          ⟨50 + 20, DispatchPhase.waitingTram 10⟩ :=
        DispatchStep.wait 50 20 10 (by norm_num)
      norm_num at h0
      exact h0
    have h3 : DispatchStep [(0, 10), (1, 5)]
        ⟨70, DispatchPhase.waitingTram 10⟩
        ⟨70, DispatchPhase.delaying 10⟩ :=
      DispatchStep.acquired 70 10
    exact Relation.ReflTransGen.head h1
      (Relation.ReflTransGen.head h2 (Relation.ReflTransGen.single h3))
  · rw [e70]; norm_num

/-- C6 (amended): the headway a dispatcher iteration sleeps for is the
one resolved at the instant the iteration begins — when the lookup and
the pool `get` are issued together — so a pool stall that suspends the
acquire across an hour boundary delays the launch but the interval
applied is still the lookup-hour interval, not the one in force when
the acquisition completes. -/
theorem C6_headway_at_lookup (I : List (ℚ × ℚ)) (t0 t1 i : ℚ)
    (h : DispatchSteps I ⟨t0, DispatchPhase.loopStart⟩
      ⟨t1, DispatchPhase.delaying i⟩) :
    i = get_current_interval I t0 ∧ t0 ≤ t1 := by
  rcases dispatch_invariant I t0 _ h with hb | ⟨u, hu, hb⟩ | ⟨u, hu, hb⟩ |
    ⟨u, hu, hb⟩
  · exact absurd (congrArg DispatchState.phase hb) (by simp)
  · exact absurd (congrArg DispatchState.phase hb) (by simp)
  · rw [DispatchState.mk.injEq] at hb
    obtain ⟨h1, h2⟩ := hb
    rw [DispatchPhase.delaying.injEq] at h2
    exact ⟨h2, h1 ▸ hu⟩
  · exact absurd (congrArg DispatchState.phase hb) (by simp)

/-- Witness for C6 (amended): the concrete stalled iteration of the
counterexample — lookup at minute 50, acquisition completing at
minute 70 — uses the interval of the lookup instant. -/
theorem C6_witness :
    (10 : ℚ) = get_current_interval [(0, 10), (1, 5)] 50 ∧ (50 : ℚ) ≤ 70 := by
  have e50 : get_current_interval [(0, 10), (1, 5)] 50 = 10 := by
    norm_num [get_current_interval, hourOfTime, List.find?]
  refine C6_headway_at_lookup [(0, 10), (1, 5)] 50 70 10 ?_
  have h1 : DispatchStep [(0, 10), (1, 5)] ⟨50, DispatchPhase.loopStart⟩
      ⟨50, DispatchPhase.waitingTram 10⟩ := by
    have h0 : DispatchStep [(0, 10), (1, 5)] ⟨50, DispatchPhase.loopStart⟩
        ⟨50, DispatchPhase.waitingTram
          (get_current_interval [(0, 10), (1, 5)] 50)⟩ :=
      DispatchStep.lookup 50
    rwa [e50] at h0
  have h2 : DispatchStep [(0, 10), (1, 5)]
      ⟨50, DispatchPhase.waitingTram 10⟩
      ⟨70, DispatchPhase.waitingTram 10⟩ := by
    have h0 : DispatchStep [(0, 10), (1, 5)]
        ⟨50, DispatchPhase.waitingTram 10⟩
        ⟨50 + 20, DispatchPhase.waitingTram 10⟩ :=
      DispatchStep.wait 50 20 10 (by norm_num)
    norm_num at h0
    exact h0
  have h3 : DispatchStep [(0, 10), (1, 5)]
      ⟨70, DispatchPhase.waitingTram 10⟩
      ⟨70, DispatchPhase.delaying 10⟩ :=
    DispatchStep.acquired 70 10
  exact Relation.ReflTransGen.head h1
    (Relation.ReflTransGen.head h2 (Relation.ReflTransGen.single h3))

/-- Modelled from claim C7's words: the travel-time formula
`acceleration_time + (distance_m/1000) * (60 / effective_speed)` with
`effective_speed = max(5.0, free_flow_speed * (1 - road_load(hour)) * jitter)`,
applied to every hop. -/
def claimTravelTime (road_loads : List (ℤ × ℚ))
    (flow_speed acceleration_time : ℚ) (distance : ℚ) (hour : ℤ)
    (jitter : ℚ) : ℚ :=
  let road_load := (road_loads.lookup hour).getD (1/2)
  let effective_speed := max 5 (flow_speed * (1 - road_load) * jitter)
  acceleration_time + (distance / 1000) * (60 / effective_speed)

/-- Counterexample for C7: a hop of distance 0 (e.g. a stop missing
from the distance table, looked up with default 0).  The code's early
return gives suspension time 0, without adding the acceleration-time
constant 0.5 that the claim's formula adds to every hop. -/
theorem C7_counterexample :
    calculate_travel_time [(8, 3/10)] 20 (1/2) 0 8 1 = 0 ∧
      claimTravelTime [(8, 3/10)] 20 (1/2) 0 8 1 = 1/2 ∧
      calculate_travel_time [(8, 3/10)] 20 (1/2) 0 8 1 ≠
        claimTravelTime [(8, 3/10)] 20 (1/2) 0 8 1 := by
  refine ⟨?_, ?_, ?_⟩
  · norm_num [calculate_travel_time]
  · norm_num [claimTravelTime, List.lookup]
  · norm_num [calculate_travel_time, claimTravelTime, List.lookup]

/-- C7 (amended): for every hop with positive distance the suspension
time equals acceleration_time + (distance/1000) * (60/effective_speed)
with effective_speed = max(5, free_flow_speed * (1 - road_load(hour)) *
jitter); a hop with distance ≤ 0 suspends 0 minutes, with no
acceleration time added. -/
theorem C7_travel_time (road_loads : List (ℤ × ℚ))
    (flow_speed acceleration_time : ℚ) (distance : ℚ) (hour : ℤ)
    (jitter : ℚ) (hd : 0 < distance) :
    calculate_travel_time road_loads flow_speed acceleration_time distance
        hour jitter =
      claimTravelTime road_loads flow_speed acceleration_time distance
        hour jitter := by
  unfold calculate_travel_time claimTravelTime
  rw [if_neg (not_le.mpr hd)]
  simp only [max_comm]
  ring

/-- Witness for C7 (amended): a 1000 m hop at hour 8 with road load
0.3, free-flow speed 20 and unit jitter. -/
theorem C7_witness :
    calculate_travel_time [(8, 3/10)] 20 (1/2) 1000 8 1 =
      claimTravelTime [(8, 3/10)] 20 (1/2) 1000 8 1 :=
  C7_travel_time [(8, 3/10)] 20 (1/2) 1000 8 1 (by norm_num)

/-- A configuration with non-positive tram capacity, used to show that
setup accepts it unchanged. -/
def badConfig : Config :=
  { stop_number := 2
    distance := [(1, 0), (2, 500)]
    flow_speed := 20
    peak_stop := 1
    tram_capacity := -3
    simulation_hours := 1
    acceleration_time := 1/2
    stop_time := 1
    intensity := []
    bus_interval := [(0, 10)]
    road_loads := [(0, 3/10)] }

/-- Counterexample for C8: loading a configuration with tram capacity
-3 succeeds (`load_config` performs no validation and raises no
CapacityInvalid error), and `create_initial_trams` then creates a fleet
of 8 trams all with capacity -3 and runs them. -/
theorem C8_counterexample :
    (load_config badConfig).tram_capacity = -3 ∧
      (create_initial_trams 8 (load_config badConfig).tram_capacity).map
          Tram.capacity = List.replicate 8 (-3) := by
  constructor
  · rfl
  · decide

/-- C8 (amended): setup performs no capacity validation at all — for
every configuration, `load_config` stores `tram_capacity` verbatim and
`create_initial_trams` creates a fleet of the requested size in which
every tram carries that capacity, whether or not it is positive. -/
theorem C8_no_capacity_validation (c : Config) (count : ℕ) :
    (load_config c).tram_capacity = c.tram_capacity ∧
      (create_initial_trams count (load_config c).tram_capacity).map
          Tram.capacity = List.replicate count c.tram_capacity ∧
      (create_initial_trams count (load_config c).tram_capacity).length =
        count := by
  refine ⟨rfl, ?_, ?_⟩
  · show ((List.range' 1 count).map _).map Tram.capacity = _
    rw [List.map_map]
    have : (Tram.capacity ∘ fun i =>
        Tram.mk i (load_config c).tram_capacity 0 Direction.forward) =
        fun _ => c.tram_capacity := rfl
    rw [this, List.map_const', List.length_range']
  · show ((List.range' 1 count).map _).length = count
    rw [List.length_map, List.length_range']

/-- The headway returned by `get_current_interval` comes from the
table (or is the model's 0 default on an empty table), so a table of
non-negative intervals yields a non-negative headway. -/
lemma get_current_interval_nonneg (I : List (ℚ × ℚ)) (t : ℚ)
    (hI : ∀ p ∈ I, 0 ≤ p.2) : 0 ≤ get_current_interval I t := by
  unfold get_current_interval
  cases hfind : I.reverse.find? (fun p => decide ((hourOfTime t : ℚ) ≥ p.1)) with
  | some p =>
      simp only [ge_iff_le, hfind]
      exact hI p (List.mem_reverse.mp (List.mem_of_find?_eq_some hfind))
  | none =>
      simp only [ge_iff_le, hfind]
      cases I with
      | nil => norm_num
      | cons a l => exact hI a (List.mem_cons_self a l)

/-- C9: with non-negative configuration constants — acceleration time,
dwell constant and all headway intervals ≥ 0 — every delay the
simulation schedules is non-negative: the travel time of a hop, the
dwell time at a stop, the headway wait and the turnaround pause. -/
theorem C9_delays_nonneg (road_loads : List (ℤ × ℚ))
    (flow_speed acceleration_time distance : ℚ) (hour : ℤ) (jitter : ℚ)
    (stop_time : ℚ) (boarded alighted : ℕ) (I : List (ℚ × ℚ)) (t : ℚ)
    (hacc : 0 ≤ acceleration_time) (hst : 0 ≤ stop_time)
    (hI : ∀ p ∈ I, 0 ≤ p.2) :
    0 ≤ calculate_travel_time road_loads flow_speed acceleration_time
        distance hour jitter ∧
      0 ≤ total_stop_time stop_time boarded alighted ∧
      0 ≤ get_current_interval I t ∧
      0 ≤ turnaround_time := by
  refine ⟨?_, ?_, get_current_interval_nonneg I t hI, by norm_num [turnaround_time]⟩
  · unfold calculate_travel_time
    by_cases hd : distance ≤ 0
    · rw [if_pos hd]
    · rw [if_neg hd]
      show 0 ≤ (distance / 1000) *
          (60 / max ((flow_speed *
            (1 - (road_loads.lookup hour).getD (1/2))) * jitter) 5) +
          acceleration_time
      have hdpos : 0 < distance := not_le.mp hd
      have hsp : (0 : ℚ) < max ((flow_speed *
          (1 - (road_loads.lookup hour).getD (1/2))) * jitter) 5 :=
        lt_of_lt_of_le (by norm_num) (le_max_right _ _)
      have h1 : (0 : ℚ) ≤ distance / 1000 := by positivity
      have h2 : (0 : ℚ) ≤ 60 / max ((flow_speed *
          (1 - (road_loads.lookup hour).getD (1/2))) * jitter) 5 := by
        positivity
      have := mul_nonneg h1 h2
      linarith
  · unfold total_stop_time
    have hb : (0 : ℚ) ≤ (boarded : ℚ) := by positivity
    have ha : (0 : ℚ) ≤ (alighted : ℚ) := by positivity
    nlinarith

/-- Witness for C9: the default constants (acceleration 0.5 min, dwell
1 min), a 500 m hop at hour 0, 3 boarded, 2 alighted, and the single
headway rule (hour 0 → 10 min). -/
theorem C9_witness :
    0 ≤ calculate_travel_time [(0, 3/10)] 20 (1/2) 500 0 1 ∧
      0 ≤ total_stop_time 1 3 2 ∧
      0 ≤ get_current_interval [(0, 10)] 30 ∧
      0 ≤ turnaround_time :=
  C9_delays_nonneg [(0, 3/10)] 20 (1/2) 500 0 1 1 3 2 [(0, 10)] 30
    (by norm_num) (by norm_num)
    (by intro p hp; rcases List.mem_singleton.mp hp with h; rw [h]; norm_num)

/-- C10: for every hour absent from the road-load table,
`calculate_travel_time` silently substitutes the congestion factor 0.5
(it neither fails nor uses the free-flow speed): the hop runs at the
jittered free-flow speed halved (floored at 5 km/h). -/
theorem C10_missing_road_load (road_loads : List (ℤ × ℚ))
    (flow_speed acceleration_time distance : ℚ) (hour : ℤ) (jitter : ℚ)
    (h : road_loads.lookup hour = none) :
    calculate_travel_time road_loads flow_speed acceleration_time distance
        hour jitter =
      if distance ≤ 0 then 0
      else (distance / 1000) *
        (60 / max (flow_speed * jitter * (1/2)) 5) + acceleration_time := by
  unfold calculate_travel_time
  rw [h]
  by_cases hd : distance ≤ 0
  · rw [if_pos hd, if_pos hd]
  · rw [if_neg hd, if_neg hd]
    show (distance / 1000) *
        (60 / max ((flow_speed * (1 - Option.getD none (1/2))) * jitter) 5) +
        acceleration_time = _
    have : (flow_speed * (1 - Option.getD none (1/2))) * jitter =
        flow_speed * jitter * (1/2) := by
      simp [Option.getD_none]
      ring
    rw [this]

/-- Witness for C10: hour 9 is absent from a table configuring only
hour 8, so the hop runs on load factor 0.5. -/
theorem C10_witness :
    calculate_travel_time [(8, 3/10)] 20 (1/2) 1000 9 1 =
      if (1000 : ℚ) ≤ 0 then 0
      else ((1000 : ℚ) / 1000) * (60 / max (20 * 1 * (1/2)) 5) + 1/2 :=
  C10_missing_road_load [(8, 3/10)] 20 (1/2) 1000 9 1 (by decide)
